import Mathlib

/-
Verification of the word-list api-sources Lambda handlers.

The repository contains two Go files implementing the same CRUD handler over
a DynamoDB table of Source records:
  * src/main.go               - legacy payload-v1 shape (events.APIGatewayProxyRequest),
                                no authorization check;
  * src/unnamed/part_000      - v2/JWT-aware shape (events.APIGatewayV2HTTPRequest),
                                with a scope-claim check in front of write methods.

The embedding below models:
  * the DynamoDB table as an association list from the key attribute (the
    string value stored under "id") to the stored item, with put as an
    unconditional upsert and delete as unconditional removal;
  * a DynamoDB item as an association list from attribute name to an
    AttributeValue (the S constructor is the string member; other
    constructors stand for the mistyped cases);
  * the Go type assertion rec["x"].(*types.AttributeValueMemberS) as an
    Option: none models the runtime panic on a missing or mistyped attribute;
  * uuid.New().String() of github.com/google/uuid as an explicit function of
    the 16 random bytes, with the version-4 bit fiddling and the 8-4-4-4-12
    lowercase-hex rendering of UUID.String();
  * json.Marshal of a Source and of a Source slice, with the escaping rules
    of encoding/json (HTML escaping on, as in the default Marshal);
  * json.Unmarshal of the request body as the already-decoded Source value
    carried on the request (the decode step itself is a silent stdlib call
    whose laxity is outside the claims treated here);
  * the possibility that the single DynamoDB call of a request fails, as a
    boolean dbFail input (config.LoadDefaultConfig failure calls log.Fatalf,
    which kills the process before the handler returns, so it is not a
    response-producing path and is not modelled);
  * each handler invocation returns the optional response (none models a
    panic escaping the handler), the table state after the call, and the
    trace of persistence calls attempted.
-/

namespace WordlistApi

/-- A stored attribute value; S is the string member type
(types.AttributeValueMemberS), the other constructors model attribute
values of a different member type. -/
inductive AttributeValue where
  | S : String → AttributeValue
  | N : String → AttributeValue
  | BOOL : Bool → AttributeValue
  | NULL : AttributeValue
deriving DecidableEq, Repr

/-- A DynamoDB item: attribute name to value, as in the Go map. -/
abbrev Item := List (String × AttributeValue)

/-- The table: key attribute value to item. -/
abbrev Store := List (String × Item)

/-- First-match association-list lookup, as a Go map read that hits. -/
def assocLookup {β : Type} : List (String × β) → String → Option β
  | [], _ => none
  | (k₂, v) :: rest, k => if k₂ == k then some v else assocLookup rest k

/-- Go map read with the zero value for a missing key. -/
def assocLookupD (l : List (String × String)) (k d : String) : String :=
  (assocLookup l k).getD d

/-- The Source entity of both Go files (fields ID, Name, Url with JSON tags
id, name, url). -/
structure Source where
  ID : String
  Name : String
  Url : String
deriving DecidableEq, Repr

/-- The outbound response; both Go response structs only ever get StatusCode
and Body set. -/
structure Response where
  statusCode : Nat
  body : String
deriving DecidableEq, Repr

/-- A persistence call attempted by a handler. -/
inductive DbOp where
  | getOp : String → DbOp
  | scanOp : DbOp
  | putOp : String → Item → DbOp
  | deleteOp : String → DbOp
deriving DecidableEq, Repr

/-- Whether a persistence call writes to the table. -/
def DbOp.isWrite : DbOp → Bool
  | DbOp.putOp _ _ => true
  | DbOp.deleteOp _ => true
  | _ => false

/-- The normalized inbound request both variants consume: HTTP method,
PathParameters map, the JWT claims map of the v2 envelope (read by the v2
handler only), and the json.Unmarshal result of the body. -/
structure Request where
  method : String
  pathParameters : List (String × String)
  claims : List (String × String)
  body : Source

/-- The result of one handler invocation: the response (none models a panic
from getSourceFromRecord), the table afterwards, and the persistence calls
attempted. -/
structure HResult where
  resp : Option Response
  store : Store
  trace : List DbOp
deriving DecidableEq, Repr

/-- PutItem: unconditional upsert keyed by the id attribute value. -/
def storePut : Store → String → Item → Store
  | [], k, v => [(k, v)]
  | (k₂, v₂) :: rest, k, v =>
    if k₂ == k then (k, v) :: rest else (k₂, v₂) :: storePut rest k v

/-- DeleteItem: unconditional removal; absent key is a no-op. -/
def storeDelete : Store → String → Store
  | [], _ => []
  | (k₂, v₂) :: rest, k =>
    if k₂ == k then rest else (k₂, v₂) :: storeDelete rest k

/-- GetItem: the item under the key, if any. -/
def storeGet (st : Store) (k : String) : Option Item :=
  assocLookup st k

/-- Scan: every stored item, in table order. -/
def storeScan (st : Store) : List Item :=
  st.map Prod.snd

/-- Lowercase hexadecimal digit, as encoding/hex uses. -/
def hexDigit (n : Nat) : Char :=
  if n < 10 then Char.ofNat (48 + n) else Char.ofNat (97 + (n - 10))

/-- Two lowercase hex characters of one byte. -/
def byteHexChars (b : Nat) : List Char :=
  [hexDigit (b / 16 % 16), hexDigit (b % 16)]

/-- uuid.New() sets the version and variant bits on the 16 random bytes:
byte 6 becomes (b6 AND 0x0f) OR 0x40, byte 8 becomes (b8 AND 0x3f) OR 0x80;
UUID.String() renders the bytes as 8-4-4-4-12 lowercase hex. -/
def uuidV4String (bs : List Nat) : String :=
  let b := fun (i : Nat) => bs.getD i 0
  String.mk
    (byteHexChars (b 0) ++ byteHexChars (b 1) ++ byteHexChars (b 2) ++
     byteHexChars (b 3) ++ [Char.ofNat 45] ++
     byteHexChars (b 4) ++ byteHexChars (b 5) ++ [Char.ofNat 45] ++
     byteHexChars (b 6 % 16 + 64) ++ byteHexChars (b 7) ++ [Char.ofNat 45] ++
     byteHexChars (b 8 % 64 + 128) ++ byteHexChars (b 9) ++ [Char.ofNat 45] ++
     byteHexChars (b 10) ++ byteHexChars (b 11) ++ byteHexChars (b 12) ++
     byteHexChars (b 13) ++ byteHexChars (b 14) ++ byteHexChars (b 15))

/-- encoding/json escaping of one character inside a string literal, with
the default HTML escaping of Marshal. -/
def jsonEscapeChar (c : Char) : String :=
  if c = '"' then "\\\""
  else if c = '\\' then "\\\\"
  else if c = '\n' then "\\n"
  else if c = '\r' then "\\r"
  else if c = '\t' then "\\t"
  else if c = '<' then "\\u003c"
  else if c = '>' then "\\u003e"
  else if c = '&' then "\\u0026"
  else if c.toNat < 32 then
    String.mk ([Char.ofNat 92, Char.ofNat 117, Char.ofNat 48, Char.ofNat 48] ++
      byteHexChars c.toNat)
  else if c.toNat = 8232 then "\\u2028"
  else if c.toNat = 8233 then "\\u2029"
  else String.singleton c

/-- encoding/json rendering of a Go string. -/
def jsonQuote (s : String) : String :=
  "\"" ++ String.join (s.data.map jsonEscapeChar) ++ "\""

/-- json.Marshal of one Source, field order ID, Name, Url with tags id,
name, url. -/
def marshalSource (s : Source) : String :=
  "\x7b\"id\":" ++ jsonQuote s.ID ++ ",\"name\":" ++ jsonQuote s.Name ++
    ",\"url\":" ++ jsonQuote s.Url ++ "\x7d"

/-- json.Marshal of a Source slice: a nil slice renders as null, a non-nil
slice as a JSON array. The handlers always build the slice with make, so
they always pass some. -/
def marshalSourceSlice : Option (List Source) → String
  | none => "null"
  | some l => "[" ++ String.intercalate "," (l.map marshalSource) ++ "]"

/-- getSourceFromRecord of both Go files. The unchecked type assertions
rec[k].(*types.AttributeValueMemberS) panic when an attribute is absent or
not of the S member type; none models that panic. -/
def getSourceFromRecord (rec : Item) : Option Source :=
  match assocLookup rec "id", assocLookup rec "name", assocLookup rec "url" with
  | some (AttributeValue.S i), some (AttributeValue.S n), some (AttributeValue.S u) =>
    some ⟨i, n, u⟩
  | _, _, _ => none

/-- The item both write handlers build: S attributes id, name, url. -/
def mkItem (id name url : String) : Item :=
  [("id", AttributeValue.S id), ("name", AttributeValue.S name),
   ("url", AttributeValue.S url)]

/-- serverError of both Go files: status 500, Sprintf error shape. -/
def serverError (message : String) : Response :=
  ⟨500, "\x7b\"error\": \"" ++ message ++ "\"\x7d"⟩

/-- ok of both Go files: status 200, body passed through. -/
def ok (content : String) : Response :=
  ⟨200, content⟩

/-- created of both Go files: status 201, body passed through. -/
def created (content : String) : Response :=
  ⟨201, content⟩

/-- unauthorized of src/unnamed/part_000. -/
def unauthorized : Response :=
  ⟨401, "\x7b\"error\": \"Unauthorised\"\x7d"⟩

/-- notAllowed of src/unnamed/part_000. -/
def notAllowed : Response :=
  ⟨405, "\x7b\"error\": \"Unsupported HTTP method\"\x7d"⟩

/-- The single write-scope value recognized by the v2 handler. -/
def writeScope : String :=
  "https://wordlist.gaul.tech/write"

/-- getAllHandler of both Go files: one Scan; on failure a 500, otherwise
every item converted by getSourceFromRecord (a bad item panics the loop)
and the non-nil slice marshalled. -/
def getAllHandler (dbFail : Bool) (store : Store) : HResult :=
  if dbFail then ⟨some (serverError "Failed to retrieve sources"), store, [DbOp.scanOp]⟩
  else
    match (storeScan store).mapM getSourceFromRecord with
    | none => ⟨none, store, [DbOp.scanOp]⟩
    | some sources =>
      ⟨some (ok (marshalSourceSlice (some sources))), store, [DbOp.scanOp]⟩

/-- getHandler of both Go files: an empty PathParameters id falls back to
getAllHandler, otherwise one GetItem; a miss is a 404, a hit is converted
(possibly panicking) and marshalled. -/
def getHandler (req : Request) (dbFail : Bool) (store : Store) : HResult :=
  let id := assocLookupD req.pathParameters "id" ""
  if id == "" then getAllHandler dbFail store
  else if dbFail then
    ⟨some (serverError "Failed to retrieve source"), store, [DbOp.getOp id]⟩
  else
    match storeGet store id with
    | none => ⟨some ⟨404, "\x7b\"error\": \"not found\"\x7d"⟩, store, [DbOp.getOp id]⟩
    | some item =>
      match getSourceFromRecord item with
      | none => ⟨none, store, [DbOp.getOp id]⟩
      | some source => ⟨some (ok (marshalSource source)), store, [DbOp.getOp id]⟩

/-- postHandler of both Go files: one PutItem storing a fresh uuid under id
with the body's name and url; the response body is source.ID, the id the
caller supplied in the request body, not the stored uuid. -/
def postHandler (req : Request) (freshBytes : List Nat) (dbFail : Bool)
    (store : Store) : HResult :=
  let source := req.body
  let newId := uuidV4String freshBytes
  let item := mkItem newId source.Name source.Url
  if dbFail then
    ⟨some (serverError "Failed to store source"), store, [DbOp.putOp newId item]⟩
  else
    ⟨some (created source.ID), storePut store newId item, [DbOp.putOp newId item]⟩

/-- putHandler of both Go files: one PutItem storing the caller-supplied id
verbatim; full replace. -/
def putHandler (req : Request) (dbFail : Bool) (store : Store) : HResult :=
  let source := req.body
  let item := mkItem source.ID source.Name source.Url
  if dbFail then
    ⟨some (serverError "Failed to store source"), store, [DbOp.putOp source.ID item]⟩
  else
    ⟨some (ok source.ID), storePut store source.ID item, [DbOp.putOp source.ID item]⟩

/-- deleteHandler of both Go files: an empty PathParameters id falls back to
getAllHandler (a read), otherwise one DeleteItem and a 200 echoing the id. -/
def deleteHandler (req : Request) (dbFail : Bool) (store : Store) : HResult :=
  let id := assocLookupD req.pathParameters "id" ""
  if id == "" then getAllHandler dbFail store
  else if dbFail then
    ⟨some (serverError "Failed to delete source"), store, [DbOp.deleteOp id]⟩
  else
    ⟨some (ok id), storeDelete store id, [DbOp.deleteOp id]⟩

/-- handler of src/main.go (legacy payload-v1 variant): a method switch with
no authorization check; the default branch answers 405 with a plain-text
body. -/
def handlerV1 (req : Request) (freshBytes : List Nat) (dbFail : Bool)
    (store : Store) : HResult :=
  if req.method == "GET" then getHandler req dbFail store
  else if req.method == "POST" then postHandler req freshBytes dbFail store
  else if req.method == "PUT" then putHandler req dbFail store
  else if req.method == "DELETE" then deleteHandler req dbFail store
  else ⟨some ⟨405, "unsupported http method"⟩, store, []⟩

/-- handler of src/unnamed/part_000 (v2/JWT variant): GET dispatches before
any check; every other method first requires the scope claim to equal
writeScope (a missing claim reads as the empty string), else 401; then the
method switch with notAllowed as default. -/
def handlerV2 (req : Request) (freshBytes : List Nat) (dbFail : Bool)
    (store : Store) : HResult :=
  if req.method == "GET" then getHandler req dbFail store
  else if assocLookupD req.claims "scope" "" != writeScope then
    ⟨some unauthorized, store, []⟩
  else if req.method == "POST" then postHandler req freshBytes dbFail store
  else if req.method == "PUT" then putHandler req dbFail store
  else if req.method == "DELETE" then deleteHandler req dbFail store
  else ⟨some notAllowed, store, []⟩

/-- Whether the first list is a prefix of the second, character by
character. -/
def listIsPrefix : List Char → List Char → Bool
  | [], _ => true
  | _ :: _, [] => false
  | a :: as, b :: bs => a == b && listIsPrefix as bs

/-- The error-body shape of the spec: the body opens with the quoted error
key and a space, and closes the quoted message and the object. -/
def isErrorShape (s : String) : Bool :=
  listIsPrefix ("\x7b\"error\": \"").data s.data &&
    listIsPrefix ("\"\x7d").data.reverse s.data.reverse

/-- Whether the item carries attribute k as the string member type: exactly
the condition under which the type assertion of getSourceFromRecord
succeeds for that attribute. -/
def isStringAttr (rec : Item) (k : String) : Prop :=
  ∃ s, assocLookup rec k = some (AttributeValue.S s)

/-- One handler invocation of the v2 variant: the inbound request, the 16
random bytes uuid.New would draw, and whether the DynamoDB call of the
invocation fails. -/
structure Step where
  req : Request
  freshBytes : List Nat
  dbFail : Bool

/-- The table state after a sequence of invocations of the v2 handler. -/
def runSteps : List Step → Store → Store
  | [], st => st
  | s :: rest, st => runSteps rest (handlerV2 s.req s.freshBytes s.dbFail st).store

/-- Every stored record sits under a non-empty key and carries that key as
its string id attribute. -/
def storeIdsNonempty (st : Store) : Prop :=
  ∀ e ∈ st, e.1 ≠ "" ∧ assocLookup e.2 "id" = some (AttributeValue.S e.1)

lemma listIsPrefix_append (p r : List Char) : listIsPrefix p (p ++ r) = true := by
  induction p with
  | nil => rfl
  | cons a as ih => simp [listIsPrefix, ih]

lemma isErrorShape_wrap (m : String) :
    isErrorShape ("\x7b\"error\": \"" ++ m ++ "\"\x7d") = true := by
  have h₁ : ("\x7b\"error\": \"" ++ m ++ "\"\x7d").data =
      ("\x7b\"error\": \"").data ++ (m.data ++ ("\"\x7d").data) := by
    simp [String.data_append]
  simp [isErrorShape, h₁, List.reverse_append, listIsPrefix]

lemma isErrorShape_serverError (m : String) :
    isErrorShape (serverError m).body = true := by
  simpa [serverError] using isErrorShape_wrap m

lemma getAllHandler_store (dbFail : Bool) (store : Store) :
    (getAllHandler dbFail store).store = store := by
  unfold getAllHandler
  split
  · rfl
  · split <;> rfl

lemma getAllHandler_trace (dbFail : Bool) (store : Store) :
    (getAllHandler dbFail store).trace = [DbOp.scanOp] := by
  unfold getAllHandler
  split
  · rfl
  · split <;> rfl

lemma getHandler_store (req : Request) (dbFail : Bool) (store : Store) :
    (getHandler req dbFail store).store = store := by
  unfold getHandler
  dsimp only
  split
  · exact getAllHandler_store dbFail store
  · split
    · rfl
    · split
      · rfl
      · split <;> rfl

lemma getHandler_trace_reads (req : Request) (dbFail : Bool) (store : Store) :
    ∀ op ∈ (getHandler req dbFail store).trace, op.isWrite = false := by
  unfold getHandler
  dsimp only
  split
  · rw [getAllHandler_trace]
    intro op hop
    simp at hop
    simp [hop, DbOp.isWrite]
  · split
    · intro op hop; simp at hop; simp [hop, DbOp.isWrite]
    · split
      · intro op hop; simp at hop; simp [hop, DbOp.isWrite]
      · split <;> (intro op hop; simp at hop; simp [hop, DbOp.isWrite])

lemma uuidV4String_ne_empty (bs : List Nat) : uuidV4String bs ≠ "" := by
  intro h
  have h₂ := congrArg String.data h
  simp [uuidV4String, byteHexChars] at h₂

/-- C1: at a create request whose body supplies the id caller-supplied, the
v2 handler stores a record under the fresh uuid but answers 201 with body
caller-supplied, the very id supplied in the request body and not the id of
the newly created record. -/
theorem c1_create_echoes_request_body_id :
    (handlerV2 ⟨"POST", [], [("scope", writeScope)],
        ⟨"caller-supplied", "rockyou", "https://example.com/rockyou.txt"⟩⟩
      (List.replicate 16 0) false []).resp = some (created "caller-supplied") ∧
    (handlerV2 ⟨"POST", [], [("scope", writeScope)],
        ⟨"caller-supplied", "rockyou", "https://example.com/rockyou.txt"⟩⟩
      (List.replicate 16 0) false []).store =
      [("00000000-0000-4000-8000-000000000000",
        mkItem "00000000-0000-4000-8000-000000000000" "rockyou"
          "https://example.com/rockyou.txt")] ∧
    "00000000-0000-4000-8000-000000000000" ≠ "caller-supplied" := by
  refine ⟨rfl, rfl, by decide⟩

lemma getHandler_congr (r₁ r₂ : Request) (h : r₁.pathParameters = r₂.pathParameters)
    (dbFail : Bool) (store : Store) :
    getHandler r₁ dbFail store = getHandler r₂ dbFail store := by
  unfold getHandler
  rw [h]

/-- C2: on the v2 handler, every non-GET request whose claims map does not
carry the write scope is answered 401 with the structured error body, with
the table untouched and an empty persistence trace; and the result of every
GET request is independent of the claims map entirely. -/
theorem c2_unauthorized_short_circuit (req : Request) (freshBytes : List Nat)
    (dbFail : Bool) (store : Store) :
    (req.method ≠ "GET" → assocLookupD req.claims "scope" "" ≠ writeScope →
      handlerV2 req freshBytes dbFail store = ⟨some unauthorized, store, []⟩ ∧
      unauthorized.statusCode = 401 ∧ isErrorShape unauthorized.body = true) ∧
    (req.method = "GET" → ∀ claims₂ : List (String × String),
      handlerV2 req freshBytes dbFail store =
        handlerV2 ⟨req.method, req.pathParameters, claims₂, req.body⟩
          freshBytes dbFail store) := by
  constructor
  · intro hm hs
    refine ⟨?_, rfl, by decide⟩
    simp [handlerV2, hm, hs]
  · intro hm claims₂
    have h₁ : handlerV2 req freshBytes dbFail store = getHandler req dbFail store := by
      simp [handlerV2, hm]
    have h₂ : handlerV2 ⟨req.method, req.pathParameters, claims₂, req.body⟩
        freshBytes dbFail store =
        getHandler ⟨req.method, req.pathParameters, claims₂, req.body⟩ dbFail store := by
      simp [handlerV2, hm]
    rw [h₁, h₂]
    exact getHandler_congr _ _ rfl dbFail store

/-- C2 witness: a POST with no claims at all is answered 401, leaves the
empty table empty and issues no persistence call. -/
theorem c2_witness :
    handlerV2 ⟨"POST", [], [], ⟨"a", "b", "c"⟩⟩ [] false [] =
      ⟨some unauthorized, [], []⟩ :=
  ((c2_unauthorized_short_circuit ⟨"POST", [], [], ⟨"a", "b", "c"⟩⟩ [] false []).1
    (by decide) (by decide)).1

/-- C3 counterexample: at a POST request with no scope claim the two
variants answer differently — the legacy handler creates (201), the v2
handler refuses (401) — so they are not functionally identical. -/
theorem c3_counterexample :
    (handlerV1 ⟨"POST", [], [], ⟨"x", "n", "u"⟩⟩ (List.replicate 16 0) false []).resp ≠
      (handlerV2 ⟨"POST", [], [], ⟨"x", "n", "u"⟩⟩ (List.replicate 16 0) false []).resp := by
  decide

/-- C3 amended: the two variants agree on every GET request, and on every
POST, PUT or DELETE request whose claims map carries the write scope; they
diverge on unauthorized writes (the legacy variant performs no scope check)
and on unsupported methods. -/
theorem c3_amended_agreement (req : Request) (freshBytes : List Nat) (dbFail : Bool)
    (store : Store)
    (h : req.method = "GET" ∨ (assocLookupD req.claims "scope" "" = writeScope ∧
      (req.method = "POST" ∨ req.method = "PUT" ∨ req.method = "DELETE"))) :
    handlerV1 req freshBytes dbFail store = handlerV2 req freshBytes dbFail store := by
  rcases h with hm | ⟨hs, hm | hm | hm⟩
  · simp [handlerV1, handlerV2, hm]
  · simp [handlerV1, handlerV2, hm, hs]
  · simp [handlerV1, handlerV2, hm, hs]
  · simp [handlerV1, handlerV2, hm, hs]

/-- C3 witness: both variants give one and the same result to a PUT
carrying the write scope. -/
theorem c3_amended_witness :
    handlerV1 ⟨"PUT", [], [("scope", writeScope)], ⟨"a", "b", "c"⟩⟩ [] false [] =
      handlerV2 ⟨"PUT", [], [("scope", writeScope)], ⟨"a", "b", "c"⟩⟩ [] false [] :=
  c3_amended_agreement ⟨"PUT", [], [("scope", writeScope)], ⟨"a", "b", "c"⟩⟩ [] false []
    (Or.inr ⟨rfl, Or.inr (Or.inl rfl)⟩)

/-- C4 counterexample: a PATCH request without the write scope is answered
401 by the v2 handler, not 405 — the claimed method-dispatch answer does
not hold regardless of authorization state. -/
theorem c4_counterexample :
    (handlerV2 ⟨"PATCH", [], [], ⟨"", "", ""⟩⟩ [] false []).resp = some unauthorized ∧
    unauthorized.statusCode ≠ 405 := by
  decide

/-- C4 amended: for a method outside GET, POST, PUT, DELETE the legacy
handler answers 405 regardless of authorization state, while the v2 handler
answers 405 only when the claims map carries the write scope and 401
otherwise. -/
theorem c4_amended_unsupported_method (req : Request) (freshBytes : List Nat)
    (dbFail : Bool) (store : Store)
    (hg : req.method ≠ "GET") (hp : req.method ≠ "POST") (hu : req.method ≠ "PUT")
    (hd : req.method ≠ "DELETE") :
    (handlerV1 req freshBytes dbFail store).resp =
      some ⟨405, "unsupported http method"⟩ ∧
    (handlerV2 req freshBytes dbFail store).resp =
      some (if assocLookupD req.claims "scope" "" == writeScope then notAllowed
        else unauthorized) := by
  constructor
  · simp [handlerV1, hg, hp, hu, hd]
  · by_cases hs : assocLookupD req.claims "scope" "" = writeScope
    · simp [handlerV2, hg, hp, hu, hd, hs]
    · simp [handlerV2, hg, hp, hu, hd, hs]

/-- C4 witness: at a PATCH request carrying the write scope, the legacy
handler answers its plain-text 405 and the v2 handler answers notAllowed. -/
theorem c4_amended_witness :
    (handlerV1 ⟨"PATCH", [], [("scope", writeScope)], ⟨"", "", ""⟩⟩ [] false []).resp =
      some ⟨405, "unsupported http method"⟩ ∧
    (handlerV2 ⟨"PATCH", [], [("scope", writeScope)], ⟨"", "", ""⟩⟩ [] false []).resp =
      some (if assocLookupD [("scope", writeScope)] "scope" "" == writeScope then
        notAllowed else unauthorized) :=
  c4_amended_unsupported_method ⟨"PATCH", [], [("scope", writeScope)], ⟨"", "", ""⟩⟩
    [] false [] (by decide) (by decide) (by decide) (by decide)

lemma respOk_getAll (dbFail : Bool) (store : Store) :
    ∀ r : Response, (getAllHandler dbFail store).resp = some r →
      r.statusCode = 200 ∨ r.statusCode = 201 ∨ isErrorShape r.body = true := by
  unfold getAllHandler
  split
  · intro r hr
    injection hr with h
    subst h
    exact Or.inr (Or.inr (isErrorShape_serverError _))
  · split
    · intro r hr; exact Option.noConfusion hr
    · intro r hr
      injection hr with h
      subst h
      exact Or.inl rfl

lemma respOk_get (req : Request) (dbFail : Bool) (store : Store) :
    ∀ r : Response, (getHandler req dbFail store).resp = some r →
      r.statusCode = 200 ∨ r.statusCode = 201 ∨ isErrorShape r.body = true := by
  unfold getHandler
  dsimp only
  split
  · exact respOk_getAll dbFail store
  · split
    · intro r hr
      injection hr with h
      subst h
      exact Or.inr (Or.inr (isErrorShape_serverError _))
    · split
      · intro r hr
        injection hr with h
        subst h
        exact Or.inr (Or.inr (by decide))
      · split
        · intro r hr; exact Option.noConfusion hr
        · intro r hr
          injection hr with h
          subst h
          exact Or.inl rfl

lemma respOk_post (req : Request) (freshBytes : List Nat) (dbFail : Bool) (store : Store) :
    ∀ r : Response, (postHandler req freshBytes dbFail store).resp = some r →
      r.statusCode = 200 ∨ r.statusCode = 201 ∨ isErrorShape r.body = true := by
  unfold postHandler
  dsimp only
  split
  · intro r hr
    injection hr with h
    subst h
    exact Or.inr (Or.inr (isErrorShape_serverError _))
  · intro r hr
    injection hr with h
    subst h
    exact Or.inr (Or.inl rfl)

lemma respOk_put (req : Request) (dbFail : Bool) (store : Store) :
    ∀ r : Response, (putHandler req dbFail store).resp = some r →
      r.statusCode = 200 ∨ r.statusCode = 201 ∨ isErrorShape r.body = true := by
  unfold putHandler
  dsimp only
  split
  · intro r hr
    injection hr with h
    subst h
    exact Or.inr (Or.inr (isErrorShape_serverError _))
  · intro r hr
    injection hr with h
    subst h
    exact Or.inl rfl

lemma respOk_delete (req : Request) (dbFail : Bool) (store : Store) :
    ∀ r : Response, (deleteHandler req dbFail store).resp = some r →
      r.statusCode = 200 ∨ r.statusCode = 201 ∨ isErrorShape r.body = true := by
  unfold deleteHandler
  dsimp only
  split
  · exact respOk_getAll dbFail store
  · split
    · intro r hr
      injection hr with h
      subst h
      exact Or.inr (Or.inr (isErrorShape_serverError _))
    · intro r hr
      injection hr with h
      subst h
      exact Or.inl rfl

lemma respOk_handlerV2 (req : Request) (freshBytes : List Nat) (dbFail : Bool)
    (store : Store) :
    ∀ r : Response, (handlerV2 req freshBytes dbFail store).resp = some r →
      r.statusCode = 200 ∨ r.statusCode = 201 ∨ isErrorShape r.body = true := by
  unfold handlerV2
  split
  · exact respOk_get req dbFail store
  · split
    · intro r hr
      injection hr with h
      subst h
      exact Or.inr (Or.inr (by decide))
    · split
      · exact respOk_post req freshBytes dbFail store
      · split
        · exact respOk_put req dbFail store
        · split
          · exact respOk_delete req dbFail store
          · intro r hr
            injection hr with h
            subst h
            exact Or.inr (Or.inr (by decide))

/-- C5 amended: every error response (status 401, 404, 405 or 500) of the
v2 handler has a body of the exact error shape; the legacy variant breaks
the claim, answering 405 with a plain-text body, and the write-success
bodies are raw id strings rather than JSON. -/
theorem c5_amended_error_bodies (req : Request) (freshBytes : List Nat) (dbFail : Bool)
    (store : Store) (r : Response)
    (hr : (handlerV2 req freshBytes dbFail store).resp = some r)
    (hs : r.statusCode = 401 ∨ r.statusCode = 404 ∨ r.statusCode = 405 ∨
      r.statusCode = 500) :
    isErrorShape r.body = true := by
  rcases respOk_handlerV2 req freshBytes dbFail store r hr with h | h | h
  · exfalso; rcases hs with h₂ | h₂ | h₂ | h₂ <;> omega
  · exfalso; rcases hs with h₂ | h₂ | h₂ | h₂ <;> omega
  · exact h

/-- C5 counterexample: the legacy handler answers an unsupported method
with status 405 and the plain-text body, which is neither of the error
shape nor JSON — so not every error response has the claimed shape. -/
theorem c5_counterexample :
    (handlerV1 ⟨"PATCH", [], [], ⟨"", "", ""⟩⟩ [] false []).resp =
      some ⟨405, "unsupported http method"⟩ ∧
    isErrorShape "unsupported http method" = false := by
  decide

/-- C5 witness: the not-found body of a GET at an unknown id is of the
error shape. -/
theorem c5_amended_witness :
    isErrorShape (Response.mk 404 "\x7b\"error\": \"not found\"\x7d").body = true :=
  c5_amended_error_bodies ⟨"GET", [("id", "zzz")], [], ⟨"", "", ""⟩⟩ [] false []
    ⟨404, "\x7b\"error\": \"not found\"\x7d"⟩ (by decide) (by decide)

/-- C7: a GET without a path id against the empty table, with the scan
succeeding, is answered 200 with body exactly the empty JSON array and not
null. -/
theorem c7_empty_scan_returns_empty_array (req : Request) (freshBytes : List Nat)
    (hm : req.method = "GET") (hid : assocLookupD req.pathParameters "id" "" = "") :
    (handlerV2 req freshBytes false []).resp = some (ok "[]") ∧ "[]" ≠ "null" := by
  refine ⟨?_, by decide⟩
  have h₁ : handlerV2 req freshBytes false [] = getAllHandler false [] := by
    simp [handlerV2, hm, getHandler, hid]
  rw [h₁]
  rfl

/-- C7 witness: the concrete GET list request on the empty table. -/
theorem c7_witness :
    (handlerV2 ⟨"GET", [], [], ⟨"", "", ""⟩⟩ [] false []).resp = some (ok "[]") ∧
    "[]" ≠ "null" :=
  c7_empty_scan_returns_empty_array ⟨"GET", [], [], ⟨"", "", ""⟩⟩ [] rfl rfl

/-- C8: a DELETE carrying the write scope but no path id runs the scan of
the list-all operation and returns its result: the table is unchanged and
the only persistence call is the scan, never a delete. -/
theorem c8_delete_without_id_lists (req : Request) (freshBytes : List Nat)
    (dbFail : Bool) (store : Store)
    (hm : req.method = "DELETE")
    (hs : assocLookupD req.claims "scope" "" = writeScope)
    (hid : assocLookupD req.pathParameters "id" "" = "") :
    handlerV2 req freshBytes dbFail store = getAllHandler dbFail store ∧
    (handlerV2 req freshBytes dbFail store).store = store ∧
    (handlerV2 req freshBytes dbFail store).trace = [DbOp.scanOp] := by
  have h₁ : handlerV2 req freshBytes dbFail store = getAllHandler dbFail store := by
    simp [handlerV2, hm, hs, deleteHandler, hid]
  refine ⟨h₁, ?_, ?_⟩
  · rw [h₁]; exact getAllHandler_store dbFail store
  · rw [h₁]; exact getAllHandler_trace dbFail store

/-- C8 witness: the concrete DELETE with no id on a one-record table. -/
theorem c8_witness :
    handlerV2 ⟨"DELETE", [], [("scope", writeScope)], ⟨"", "", ""⟩⟩ [] false
        [("a", mkItem "a" "n" "u")] =
      getAllHandler false [("a", mkItem "a" "n" "u")] ∧
    (handlerV2 ⟨"DELETE", [], [("scope", writeScope)], ⟨"", "", ""⟩⟩ [] false
        [("a", mkItem "a" "n" "u")]).store = [("a", mkItem "a" "n" "u")] ∧
    (handlerV2 ⟨"DELETE", [], [("scope", writeScope)], ⟨"", "", ""⟩⟩ [] false
        [("a", mkItem "a" "n" "u")]).trace = [DbOp.scanOp] :=
  c8_delete_without_id_lists ⟨"DELETE", [], [("scope", writeScope)], ⟨"", "", ""⟩⟩
    [] false [("a", mkItem "a" "n" "u")] rfl rfl rfl

/-- C9: whenever any of the attributes id, name, url is absent from the
item or not of the string member type, getSourceFromRecord panics (none)
instead of yielding a Source with a substituted default. -/
theorem c9_bad_attribute_panics (rec : Item)
    (h : ¬ isStringAttr rec "id" ∨ ¬ isStringAttr rec "name" ∨ ¬ isStringAttr rec "url") :
    getSourceFromRecord rec = none := by
  unfold getSourceFromRecord
  split
  · next i n u hi hn hu =>
      exfalso
      rcases h with h | h | h
      · exact h ⟨i, hi⟩
      · exact h ⟨n, hn⟩
      · exact h ⟨u, hu⟩
  · rfl

/-- C9 witness: an item whose name attribute is number-typed converts to
none. -/
theorem c9_witness :
    getSourceFromRecord
      [("id", AttributeValue.S "a"), ("name", AttributeValue.N "3"),
       ("url", AttributeValue.S "u")] = none :=
  c9_bad_attribute_panics
    [("id", AttributeValue.S "a"), ("name", AttributeValue.N "3"),
     ("url", AttributeValue.S "u")]
    (Or.inr (Or.inl (by rintro ⟨s, hs⟩; simp [assocLookup] at hs)))

/-- C10: a GET request leaves the table exactly as it was and its
persistence trace contains no write operation. -/
theorem c10_get_is_read_only (req : Request) (freshBytes : List Nat) (dbFail : Bool)
    (store : Store) (hm : req.method = "GET") :
    (handlerV2 req freshBytes dbFail store).store = store ∧
    ∀ op ∈ (handlerV2 req freshBytes dbFail store).trace, op.isWrite = false := by
  have h₁ : handlerV2 req freshBytes dbFail store = getHandler req dbFail store := by
    simp [handlerV2, hm]
  rw [h₁]
  exact ⟨getHandler_store req dbFail store, getHandler_trace_reads req dbFail store⟩

/-- C6 counterexample: one authorized PUT whose body carries the empty id
is a reachable history from the empty table, and it leaves a stored record
whose key and id attribute are the empty string. -/
theorem c6_counterexample :
    runSteps [⟨⟨"PUT", [], [("scope", writeScope)], ⟨"", "name", "url"⟩⟩, [], false⟩] [] =
      [("", mkItem "" "name" "url")] ∧
    assocLookup (mkItem "" "name" "url") "id" = some (AttributeValue.S "") := by
  decide

lemma storeIdsNonempty_put (k : String) (v : Item) (hk : k ≠ "")
    (hv : assocLookup v "id" = some (AttributeValue.S k)) :
    ∀ st : Store, storeIdsNonempty st → storeIdsNonempty (storePut st k v) := by
  intro st
  induction st with
  | nil =>
    intro _ e he
    simp [storePut] at he
    subst he
    exact ⟨hk, hv⟩
  | cons p rest ih =>
    obtain ⟨k₂, v₂⟩ := p
    intro hst e he
    rw [storePut] at he
    split at he
    · rcases List.mem_cons.mp he with rfl | hmem
      · exact ⟨hk, hv⟩
      · exact hst e (List.mem_cons_of_mem _ hmem)
    · rcases List.mem_cons.mp he with rfl | hmem
      · exact hst _ (List.mem_cons_self _ _)
      · exact ih (fun e₂ he₂ => hst e₂ (List.mem_cons_of_mem _ he₂)) e hmem

lemma storeIdsNonempty_delete (k : String) :
    ∀ st : Store, storeIdsNonempty st → storeIdsNonempty (storeDelete st k) := by
  intro st
  induction st with
  | nil =>
    intro _ e he
    simp [storeDelete] at he
  | cons p rest ih =>
    obtain ⟨k₂, v₂⟩ := p
    intro hst e he
    rw [storeDelete] at he
    split at he
    · exact hst e (List.mem_cons_of_mem _ he)
    · rcases List.mem_cons.mp he with rfl | hmem
      · exact hst _ (List.mem_cons_self _ _)
      · exact ih (fun e₂ he₂ => hst e₂ (List.mem_cons_of_mem _ he₂)) e hmem

lemma storeIdsNonempty_handlerV2 (req : Request) (freshBytes : List Nat)
    (dbFail : Bool) (store : Store)
    (hst : storeIdsNonempty store) (hput : req.method = "PUT" → req.body.ID ≠ "") :
    storeIdsNonempty (handlerV2 req freshBytes dbFail store).store := by
  unfold handlerV2
  split
  · rw [getHandler_store]
    exact hst
  · split
    · exact hst
    · split
      · unfold postHandler
        dsimp only
        split
        · exact hst
        · exact storeIdsNonempty_put (uuidV4String freshBytes)
            (mkItem (uuidV4String freshBytes) req.body.Name req.body.Url)
            (uuidV4String_ne_empty freshBytes) rfl store hst
      · split
        · next hm =>
            unfold putHandler
            dsimp only
            split
            · exact hst
            · exact storeIdsNonempty_put req.body.ID
                (mkItem req.body.ID req.body.Name req.body.Url)
                (hput (by simpa using hm)) rfl store hst
        · split
          · unfold deleteHandler
            dsimp only
            split
            · rw [getAllHandler_store]
              exact hst
            · split
              · exact hst
              · exact storeIdsNonempty_delete _ store hst
          · exact hst

lemma runSteps_inv :
    ∀ (steps : List Step) (st : Store), storeIdsNonempty st →
      (∀ s ∈ steps, s.req.method = "PUT" → s.req.body.ID ≠ "") →
      storeIdsNonempty (runSteps steps st) := by
  intro steps
  induction steps with
  | nil =>
    intro st hst _
    exact hst
  | cons s rest ih =>
    intro st hst h
    rw [runSteps]
    exact ih _
      (storeIdsNonempty_handlerV2 s.req s.freshBytes s.dbFail st hst
        (h s (List.mem_cons_self _ _)))
      (fun s₂ hs₂ => h s₂ (List.mem_cons_of_mem _ hs₂))

/-- C6 amended: along any history of v2 handler invocations from the empty
table in which every PUT request's body carries a non-empty id, every
stored record has a non-empty id equal to its table key; creates always
store the non-empty rendered uuid, but a PUT with an empty body id stores a
record with an empty id, as the counterexample shows. -/
theorem c6_amended_nonempty_ids (steps : List Step)
    (h : ∀ s ∈ steps, s.req.method = "PUT" → s.req.body.ID ≠ "") :
    storeIdsNonempty (runSteps steps []) :=
  runSteps_inv steps [] (by intro e he; simp at he) h

/-- C6 witness: a create, an update with a non-empty id and a delete leave
only non-empty ids in the table. -/
theorem c6_amended_witness :
    storeIdsNonempty (runSteps
      [⟨⟨"POST", [], [("scope", writeScope)], ⟨"", "n", "u"⟩⟩, List.replicate 16 0, false⟩,
       ⟨⟨"PUT", [], [("scope", writeScope)], ⟨"k1", "n2", "u2"⟩⟩, [], false⟩,
       ⟨⟨"DELETE", [("id", "k1")], [("scope", writeScope)], ⟨"", "", ""⟩⟩, [], false⟩] []) :=
  c6_amended_nonempty_ids
    [⟨⟨"POST", [], [("scope", writeScope)], ⟨"", "n", "u"⟩⟩, List.replicate 16 0, false⟩,
     ⟨⟨"PUT", [], [("scope", writeScope)], ⟨"k1", "n2", "u2"⟩⟩, [], false⟩,
     ⟨⟨"DELETE", [("id", "k1")], [("scope", writeScope)], ⟨"", "", ""⟩⟩, [], false⟩]
    (by decide)

/-- C10 witness: the concrete GET by id on a one-record table. -/
theorem c10_witness :
    (handlerV2 ⟨"GET", [("id", "a")], [], ⟨"", "", ""⟩⟩ [] false
        [("a", mkItem "a" "n" "u")]).store = [("a", mkItem "a" "n" "u")] ∧
    ∀ op ∈ (handlerV2 ⟨"GET", [("id", "a")], [], ⟨"", "", ""⟩⟩ [] false
        [("a", mkItem "a" "n" "u")]).trace, op.isWrite = false :=
  c10_get_is_read_only ⟨"GET", [("id", "a")], [], ⟨"", "", ""⟩⟩ [] false
    [("a", mkItem "a" "n" "u")] rfl

end WordlistApi
